import Mathlib

/-!
Verification of the APK editor core (src/apk_editor.py, src/app.py) against
its specification.  The Python code is shallowly embedded: filesystem and
subprocess effects become explicit environment records, every caught
exception becomes an `Option`/`Bool` branch, and the two uncaught
`os.makedirs` call sites become an `Except` error.  String primitives of
Python (`str.endswith`, `in`, `os.path.basename`, `os.path.dirname`,
`str.strip`, `str.lower`, `str.replace`) are re-implemented structurally
over `List Char` so that all definitions are executable and reduce in the
kernel.
-/

/-! ## Python string primitives -/

/-- Python `s.endswith(suffix)`. -/
def pyEndsWith (s suffix : String) : Bool :=
  suffix.data.isSuffixOf s.data

/-- Python `s.startswith(pre)`. -/
def pyStartsWith (s pre : String) : Bool :=
  pre.data.isPrefixOf s.data

/-- Helper for `pyContains`: substring search on char lists. -/
def listContainsSub (pat : List Char) : List Char → Bool
  | [] => pat.isEmpty
  | c :: rest => pat.isPrefixOf (c :: rest) || listContainsSub pat rest

/-- Python `sub in s` (substring containment). -/
def pyContains (s sub : String) : Bool :=
  listContainsSub sub.data s.data

/-- Python `os.path.basename(p)` (POSIX): everything after the last slash. -/
def pyBasename (p : String) : String :=
  ⟨(p.data.reverse.takeWhile (fun c => c ≠ '/')).reverse⟩

/-- Python `os.path.dirname(p)` (POSIX): everything up to the last slash,
with trailing slashes stripped unless the head is all slashes. -/
def pyDirname (p : String) : String :=
  let head := (p.data.reverse.dropWhile (fun c => c ≠ '/')).reverse
  if head.all (fun c => c = '/') then ⟨head⟩
  else ⟨(head.reverse.dropWhile (fun c => c = '/')).reverse⟩

/-- Python whitespace as used by `str.strip()` with no arguments. -/
def pyIsSpace (c : Char) : Bool :=
  c = ' ' || c = '\t' || c = '\n' || c = '\r' || c = '\x0b' || c = '\x0c'

/-- Python `c in s` for a single character. -/
def pyHasChar (s : String) (c : Char) : Bool :=
  s.data.contains c

/-- Python `s.strip()`. -/
def pyStrip (s : String) : String :=
  ⟨((s.data.dropWhile pyIsSpace).reverse.dropWhile pyIsSpace).reverse⟩

/-- Python `s.lower()` (ASCII range, as exercised by the code under study). -/
def pyLower (s : String) : String :=
  ⟨s.data.map Char.toLower⟩

/-- Fuel-driven core of Python `s.replace(pat, rep)`: scans left to right,
replacing non-overlapping occurrences.  The fuel is the length of the
scanned list, which each step strictly decreases by at least one. -/
def pyReplaceAux (pat rep : List Char) : Nat → List Char → List Char
  | _, [] => []
  | 0, l => l
  | Nat.succ n, c :: rest =>
    if !pat.isEmpty && pat.isPrefixOf (c :: rest) then
      rep ++ pyReplaceAux pat rep n ((c :: rest).drop pat.length)
    else
      c :: pyReplaceAux pat rep n rest

/-- Python `s.replace(pat, rep)` for the non-empty patterns used by the code. -/
def pyReplace (s pat rep : String) : String :=
  ⟨pyReplaceAux pat.data rep.data s.data.length s.data⟩

/-! ## Association-list file stores -/

/-- Write `content` at key `p`, overwriting an existing binding (the
semantics of writing a file): the first binding for `p` is replaced,
otherwise the pair is appended. -/
def writeFile (st : List (String × String)) (p content : String) :
    List (String × String) :=
  if st.any (fun e => e.1 == p) then
    st.map (fun e => if e.1 == p then (p, content) else e)
  else
    st ++ [(p, content)]

/-- Read the content bound to `p`, if any. -/
def lookupFile (p : String) (st : List (String × String)) : Option String :=
  (st.find? (fun e => e.1 == p)).map (fun e => e.2)

/-! ## Embedding of `src/apk_editor.py`

The `APKEditor` object's construction-time probes and every external
effect are collected in `EditorEnv`.  `run_command` is the outcome of
`_run_command` for a given argument vector: that method catches every
exception (timeout, launch failure) and returns a `Bool`, so it is a total
function in the environment.  `open_zip` is `zipfile.ZipFile(p).namelist`
together with per-entry contents; `none` models the constructor or parse
raising (always caught by the callers under study except where noted).
`makedirs_ok p = false` models `os.makedirs(p, exist_ok=True)` raising —
the one effect the Python code does *not* wrap in `try`. -/

structure EditorEnv where
  apktool_path : Option String
  java_path : Option String
  run_command : List String → Bool
  path_exists : String → Bool
  getsize : String → Nat
  makedirs_ok : String → Bool
  open_zip : String → Option (List (String × String))
  tool_effect : List (String × String) → List (String × String)
  zip_create_ok : String → Bool

/-- Filesystem state threaded through the stateful operations: regular
files (path to byte content) and the set of directories created. -/
structure FsState where
  files : List (String × String)
  dirs : List String
deriving DecidableEq

/-- The uncaught fault that can escape `decompile_apk`/`compile_apk`:
an `OSError` from the unguarded `os.makedirs` call. -/
inductive PyErr where
  | osError
deriving DecidableEq

/-- Result of a `decompile_apk`/`compile_apk` call: the returned boolean,
the filesystem state afterwards, the argument vectors passed to the
external decompiler, and (for fallback compile) the archive written at
the output path, given as its entry list. -/
structure OpResult where
  ok : Bool
  fs : FsState
  tool_cmds : List (List String)
  created : Option (List (String × String))
deriving DecidableEq

/-- The fixed keystore path of `_create_debug_keystore`. -/
def keystorePath : String := "debug.keystore"

/-- The `keytool -genkey` argument vector of `_create_debug_keystore`. -/
def keytool_cmd : List String :=
  ["keytool", "-genkey", "-v", "-keystore", keystorePath,
   "-alias", "androiddebugkey", "-keyalg", "RSA",
   "-keysize", "2048", "-validity", "10000",
   "-storepass", "android", "-keypass", "android",
   "-dname", "CN=Android Debug,O=Android,C=US"]

/-- The `jarsigner` argument vector of `_sign_apk`. -/
def jarsigner_cmd (keystore_path apk_path : String) : List String :=
  ["jarsigner", "-verbose", "-sigalg", "SHA1withRSA",
   "-digestalg", "SHA1", "-keystore", keystore_path,
   "-storepass", "android", "-keypass", "android",
   apk_path, "androiddebugkey"]

/-- `_create_debug_keystore`: reuse an existing keystore, otherwise run
`keytool`; a failed generation yields `none` (the method returns `None`). -/
def create_debug_keystore (env : EditorEnv) : Option String :=
  if env.path_exists keystorePath then some keystorePath
  else if env.run_command keytool_cmd then some keystorePath
  else none

/-- `_sign_apk`: if no keystore could be obtained the method logs a warning
and returns `True`; otherwise it returns `_run_command(jarsigner ...)`.
The surrounding `try` catches exceptions and also returns `True`, but in
this embedding no sub-step can raise, so that arm is not reachable. -/
def sign_apk (env : EditorEnv) (apk_path : String) : Bool :=
  match create_debug_keystore env with
  | none => true
  | some ks => env.run_command (jarsigner_cmd ks apk_path)

/-- A zip entry naming a directory (trailing slash). -/
def is_dir_entry (name : String) : Bool :=
  pyEndsWith name "/"

/-- `zip_ref.extractall(output_dir)` over an explicit file store: each
non-directory entry is written verbatim under `output_dir`.  (CPython
additionally drops empty, `.` and `..` name components; the theorems that
use this definition restrict attention to archives whose entry names are
already plain relative paths, on which that normalisation is the
identity.) -/
def extractall_into (out : String) :
    List (String × String) → List (String × String) → List (String × String)
  | [], files => files
  | e :: rest, files =>
    extractall_into out rest
      (if is_dir_entry e.1 then files
       else writeFile files (out ++ "/" ++ e.1) e.2)

/-- The entry-by-entry loop of `extractall` into a fresh directory, keyed
by archive-relative path, starting from the files already written. -/
def extract_entries_from :
    List (String × String) → List (String × String) → List (String × String)
  | acc, [] => acc
  | acc, e :: rest =>
    extract_entries_from
      (if is_dir_entry e.1 then acc else writeFile acc e.1 e.2) rest

/-- The tree produced by `_extract_apk_as_zip` into a fresh directory,
keyed by archive-relative path. -/
def extract_entries (entries : List (String × String)) :
    List (String × String) :=
  extract_entries_from [] entries

/-- `_create_apk_as_zip` on a tree extracted into a fresh directory:
`os.walk` enumerates the tree's files in some order `order`, and each file
is written to the new archive under its path relative to the project
directory. -/
def create_entries (tree : List (String × String)) (order : List String) :
    List (String × String) :=
  order.filterMap (fun p => (lookupFile p tree).map (fun c => (p, c)))

/-- `decompile_apk`.  Returns `False` before any effect when the APK is
missing; then runs the unguarded `os.makedirs(output_dir, exist_ok=True)`
(the only raise site, `Except.error` here); then either invokes the
external decompiler (both probes truthy) or falls back to
`_extract_apk_as_zip`, whose `try` converts any archive failure to
`False`. -/
def decompile_apk (env : EditorEnv) (st : FsState)
    (apk_path output_dir : String) : Except PyErr OpResult :=
  if !env.path_exists apk_path then
    .ok { ok := false, fs := st, tool_cmds := [], created := none }
  else if !env.makedirs_ok output_dir then
    .error .osError
  else
    let st1 : FsState := { st with dirs := st.dirs ++ [output_dir] }
    match env.apktool_path, env.java_path with
    | some tool, some java =>
      let cmd := [java, "-jar", tool, "d", apk_path, "-o", output_dir, "-f"]
      .ok { ok := env.run_command cmd, fs := { st1 with files := env.tool_effect st1.files },
            tool_cmds := [cmd], created := none }
    | _, _ =>
      match env.open_zip apk_path with
      | some entries =>
        .ok { ok := true,
              fs := { st1 with files := extractall_into output_dir entries st1.files },
              tool_cmds := [], created := none }
      | none =>
        .ok { ok := false, fs := st1, tool_cmds := [], created := none }

/-- The files of the store lying under `dir`, with their paths relative to
`dir`, in store order — the tree `os.walk(project_dir)` enumerates. -/
def files_under (files : List (String × String)) (dir : String) :
    List (String × String) :=
  files.filterMap (fun e =>
    if pyStartsWith e.1 (dir ++ "/") then
      some (⟨e.1.data.drop (dir ++ "/").length⟩, e.2)
    else none)

/-- `compile_apk`.  Returns `False` when the project directory is missing;
then runs the unguarded `os.makedirs(os.path.dirname(output_path),
exist_ok=True)`; in native mode invokes the build command and, on success,
returns `_sign_apk`'s result; in fallback mode writes every file under the
project directory into a new archive (`_create_apk_as_zip`), whose `try`
converts failure to `False`. -/
def compile_apk (env : EditorEnv) (st : FsState)
    (project_dir output_path : String) : Except PyErr OpResult :=
  if !env.path_exists project_dir then
    .ok { ok := false, fs := st, tool_cmds := [], created := none }
  else if !env.makedirs_ok (pyDirname output_path) then
    .error .osError
  else
    let st1 : FsState := { st with dirs := st.dirs ++ [pyDirname output_path] }
    match env.apktool_path, env.java_path with
    | some tool, some java =>
      let cmd := [java, "-jar", tool, "b", project_dir, "-o", output_path]
      if env.run_command cmd then
        .ok { ok := sign_apk env output_path,
              fs := { st1 with files := env.tool_effect st1.files },
              tool_cmds := [cmd], created := none }
      else
        .ok { ok := false, fs := { st1 with files := env.tool_effect st1.files },
              tool_cmds := [cmd], created := none }
    | _, _ =>
      if env.zip_create_ok output_path then
        .ok { ok := true, fs := st1, tool_cmds := [],
              created := some (files_under st1.files project_dir) }
      else
        .ok { ok := false, fs := st1, tool_cmds := [], created := none }

/-- The record returned by `get_apk_info`: `files_count` is `none` when
the archive could not be opened (the key is never set). -/
structure ApkInfo where
  filename : String
  size : Nat
  valid : Bool
  files_count : Option Nat
deriving DecidableEq

/-- `get_apk_info`: size defaults to `0` for a missing path; the archive
is opened and checked for `AndroidManifest.xml` and at least one `.dex`
entry; any open failure leaves `valid = false` and `files_count` unset. -/
def get_apk_info (env : EditorEnv) (apk_path : String) : ApkInfo :=
  let base : ApkInfo :=
    { filename := pyBasename apk_path,
      size := if env.path_exists apk_path then env.getsize apk_path else 0,
      valid := false, files_count := none }
  match env.open_zip apk_path with
  | some entries =>
    let files := entries.map (fun e => e.1)
    { base with
      valid := files.contains "AndroidManifest.xml"
                 && files.any (fun f => pyEndsWith f ".dex"),
      files_count := some files.length }
  | none => base

/-- The capability snapshot returned by `is_ready`. -/
structure Readiness where
  apktool_available : Bool
  java_available : Bool
  ready : Bool
  simulation_mode : Bool
deriving DecidableEq

/-- `is_ready`: `ready` is hard-coded `True`; `simulation_mode` depends
only on the decompiler probe, not on the runtime probe. -/
def is_ready (env : EditorEnv) : Readiness :=
  { apktool_available := env.apktool_path.isSome,
    java_available := env.java_path.isSome,
    ready := true,
    simulation_mode := env.apktool_path.isNone }

/-! ## Embedding of the export engine in `src/app.py`

`should_skip_file` and `create_android_studio_export` interact with the
filesystem through `open`, `os.path.exists`, `os.path.getsize` and
`zipfile.ZipFile.write`; these are collected in `AppFS`.  XML
well-formedness is delegated to `xml.etree.ElementTree.fromstring`, an
external library call, modelled by the predicate parameter `xmlParses`. -/

structure AppFS where
  path_exists : String → Bool
  getsize : String → Nat
  readText : String → Option String
  readBin : String → Option String

structure ExportEnv where
  fs : AppFS
  xmlParses : String → Bool
  zipOk : Bool

/-- The `problematic_dirs` fragment list of `should_skip_file`. -/
def problematic_dirs : List String :=
  ["drawable-ldrtl-", "color-v31/", "drawable-v31/", "layout-v31/",
   "values-v31/", "mipmap-anydpi-v26/"]

/-- The filesystem-unsafe characters checked against the basename. -/
def bad_name_chars : List Char := ['?', ':', '<', '>', '|', '"', '*']

/-- `should_skip_file`, check for check in source order.  A text read that
raises (`FileNotFoundError`, `UnicodeDecodeError`, anything else) is
`readText = none` and maps to skip; a parse failure maps to skip. -/
def should_skip_file (fs : AppFS) (xmlParses : String → Bool)
    (file_path : String) : Bool :=
  if pyEndsWith file_path ".9.png" then true
  else if pyEndsWith file_path ".arsc" then true
  else if pyEndsWith file_path ".dex" then true
  else if pyEndsWith file_path ".kotlin_builtins" then true
  else if pyContains file_path "META-INF/"
          && (pyEndsWith file_path ".RSA" || pyEndsWith file_path ".SF"
              || pyEndsWith file_path ".MF") then true
  else if problematic_dirs.any (fun d => pyContains file_path d) then true
  else if bad_name_chars.any (fun c => pyHasChar (pyBasename file_path) c) then true
  else if fs.path_exists file_path
          && decide (fs.getsize file_path > 50 * 1024 * 1024) then true
  else if pyEndsWith file_path ".xml" then
    match fs.readText file_path with
    | none => true
    | some content =>
      if pyStrip content = "" then true else !(xmlParses content)
  else false

/-- `project_name.lower().replace(" ", "_")`. -/
def slugU (project_name : String) : String :=
  pyReplace (pyLower project_name) " " "_"

/-- `project_name.lower().replace(" ", "_").replace("-", "_")`. -/
def slugUH (project_name : String) : String :=
  pyReplace (pyReplace (pyLower project_name) " " "_") "-" "_"

def gradle_wrapper_properties : String := "distributionBase=GRADLE_USER_HOME\ndistributionPath=wrapper/dists\ndistributionUrl=https\\://services.gradle.org/distributions/gradle-8.0-bin.zip\nzipStoreBase=GRADLE_USER_HOME\nzipStorePath=wrapper/dists\n"

def gradle_wrapper_bat : String := "@rem\n@rem Copyright 2015 the original author or authors.\n@rem\n@rem Licensed under the Apache License, Version 2.0 (the \"License\");\n@rem you may not use this file except in compliance with the License.\n@rem You may obtain a copy of the License at\n@rem\n@rem      https://www.apache.org/licenses/LICENSE-2.0\n@rem\n@rem Unless required by applicable law or agreed to in writing, software\n@rem distributed under the License is distributed on an \"AS IS\" BASIS,\n@rem WITHOUT WARRANTIES OR CONDITIONS OF ANY KIND, either express or implied.\n@rem See the License for the specific language governing permissions and\n@rem limitations under the License.\n@rem\n\n@if \"%DEBUG%\" == \"\" @echo off\n@rem ##########################################################################\n@rem\n@rem  Gradle startup script for Windows\n@rem\n@rem ##########################################################################\n\n@rem Set local scope for the variables with windows NT shell\nif \"%OS%\"==\"Windows_NT\" setlocal\n\nset DIRNAME=%~dp0\nif \"%DIRNAME%\" == \"\" set DIRNAME=.\nset APP_BASE_NAME=%~n0\nset APP_HOME=%DIRNAME%\n\n@rem Resolve any \".\" and \"..\" in APP_HOME to make it shorter.\nfor %%i in (\"%APP_HOME%\") do set APP_HOME=%%~fi\n\n@rem Add default JVM options here. You can also use JAVA_OPTS and GRADLE_OPTS to pass JVM options to this script.\nset DEFAULT_JVM_OPTS=\"-Xmx64m\" \"-Xms64m\"\n\n@rem Find java.exe\nif defined JAVA_HOME goto findJavaFromJavaHome\n\nset JAVA_EXE=java.exe\n%JAVA_EXE% -version >NUL 2>&1\nif \"%ERRORLEVEL%\" == \"0\" goto execute\n\necho.\necho ERROR: JAVA_HOME is not set and no \x27java\x27 command could be found in your PATH.\necho.\necho Please set the JAVA_HOME variable in your environment to match the\necho location of your Java installation.\n\ngoto fail\n\n:findJavaFromJavaHome\nset JAVA_HOME=%JAVA_HOME:\"=%\nset JAVA_EXE=%JAVA_HOME%/bin/java.exe\n\nif exist \"%JAVA_EXE%\" goto execute\n\necho.\necho ERROR: JAVA_HOME is set to an invalid directory: %JAVA_HOME%\necho.\necho Please set the JAVA_HOME variable in your environment to match the\necho location of your Java installation.\n\ngoto fail\n\n:execute\n@rem Setup the command line\n\nset CLASSPATH=%APP_HOME%\\gradle\\wrapper\\gradle-wrapper.jar\n\n@rem Execute Gradle\n\"%JAVA_EXE%\" %DEFAULT_JVM_OPTS% %JAVA_OPTS% %GRADLE_OPTS% \"-Dorg.gradle.appname=%APP_BASE_NAME%\" -classpath \"%CLASSPATH%\" org.gradle.wrapper.GradleWrapperMain %*\n\n:end\n@rem End local scope for the variables with windows NT shell\nif \"%ERRORLEVEL%\"==\"0\" goto mainEnd\n\n:fail\nrem Set variable GRADLE_EXIT_CONSOLE if you need the _script_ return code instead of\nrem the _cmd_ return code when the batch script calls an unreachable command.\nset GRADLE_EXIT_CONSOLE=full\nexit /b 1\n\n:mainEnd\nif \"%OS%\"==\"Windows_NT\" endlocal\n\n:omega\n"

def gradle_wrapper_content : String := "#!/usr/bin/env sh\n##############################################################################\n##\n##  Gradle start up script for UN*X\n##\n##############################################################################\n\n# Attempt to set APP_HOME\n# Resolve links: $0 may be a link\nPRG=\"$0\"\n# Need this for relative symlinks.\nwhile [ -h \"$PRG\" ] ; do\n    ls=\x60ls -ld \"$PRG\"\x60\n    link=\x60expr \"$ls\" : \x27.*-> \\(.*\\)$\x27\x60\n    if expr \"$link\" : \x27/.*\x27 > /dev/null; then\n        PRG=\"$link\"\n    else\n        PRG=\x60dirname \"$PRG\"\x60\"/$link\"\n    fi\ndone\nSAVED=\"\x60pwd\x60\"\ncd \"\x60dirname \\\"$PRG\\\"\x60/\" >/dev/null\nAPP_HOME=\"\x60pwd -P\x60\"\ncd \"$SAVED\" >/dev/null\n\nAPP_NAME=\"Gradle\"\nAPP_BASE_NAME=\x60basename \"$0\"\x60\n\n# Add default JVM options here. You can also use JAVA_OPTS and GRADLE_OPTS to pass JVM options to this script.\nDEFAULT_JVM_OPTS=\x27\"-Xmx64m\" \"-Xms64m\"\x27\n\n# Use the maximum available, or set MAX_FD != -1 to use that value.\nMAX_FD=\"maximum\"\n\nwarn () \x7b\n    echo \"$*\"\n\x7d\n\ndie () \x7b\n    echo\n    echo \"$*\"\n    echo\n    exit 1\n\x7d\n\n# OS specific support (must be \x27true\x27 or \x27false\x27).\ncygwin=false\nmsys=false\ndarwin=false\nnonstop=false\ncase \"\x60uname\x60\" in\n  CYGWIN* )\n    cygwin=true\n    ;;\n  Darwin* )\n    darwin=true\n    ;;\n  MINGW* )\n    msys=true\n    ;;\n  NONSTOP* )\n    nonstop=true\n    ;;\nesac\n\nCLASSPATH=$APP_HOME/gradle/wrapper/gradle-wrapper.jar\n\n# Determine the Java command to use to start the JVM.\nif [ -n \"$JAVA_HOME\" ] ; then\n    if [ -x \"$JAVA_HOME/jre/sh/java\" ] ; then\n        # IBM\x27s JDK on AIX uses strange locations for the executables\n        JAVACMD=\"$JAVA_HOME/jre/sh/java\"\n    else\n        JAVACMD=\"$JAVA_HOME/bin/java\"\n    fi\n    if [ ! -x \"$JAVACMD\" ] ; then\n        die \"ERROR: JAVA_HOME is set to an invalid directory: $JAVA_HOME\n\nPlease set the JAVA_HOME variable in your environment to match the\nlocation of your Java installation.\"\n    fi\nelse\n    JAVACMD=\"java\"\n    which java >/dev/null 2>&1 || die \"ERROR: JAVA_HOME is not set and no \x27java\x27 command could be found in your PATH.\n\nPlease set the JAVA_HOME variable in your environment to match the\nlocation of your Java installation.\"\nfi\n\n# Increase the maximum file descriptors if we can.\nif [ \"$cygwin\" = \"false\" -a \"$darwin\" = \"false\" -a \"$nonstop\" = \"false\" ] ; then\n    MAX_FD_LIMIT=\x60ulimit -H -n\x60\n    if [ $? -eq 0 ] ; then\n        if [ \"$MAX_FD\" = \"maximum\" -o \"$MAX_FD\" = \"max\" ] ; then\n            MAX_FD=\"$MAX_FD_LIMIT\"\n        fi\n        ulimit -n $MAX_FD\n        if [ $? -ne 0 ] ; then\n            warn \"Could not set maximum file descriptor limit: $MAX_FD\"\n        fi\n    else\n        warn \"Could not query maximum file descriptor limit: $MAX_FD_LIMIT\"\n    fi\nfi\n\n# For Darwin, add options to specify how the application appears in the dock\nif [ \"$darwin\" = \"true\" ]; then\n    GRADLE_OPTS=\"$GRADLE_OPTS \\\"-Xdock:name=$APP_NAME\\\" \\\"-Xdock:icon=$APP_HOME/media/gradle.icns\\\"\"\nfi\n\n# For Cygwin or MSYS, switch paths to Windows format before running java\nif [ \"$cygwin\" = \"true\" -o \"$msys\" = \"true\" ] ; then\n    APP_HOME=\x60cygpath --path --mixed \"$APP_HOME\"\x60\n    CLASSPATH=\x60cygpath --path --mixed \"$CLASSPATH\"\x60\n    JAVACMD=\x60cygpath --unix \"$JAVACMD\"\x60\n\n    # We build the pattern for arguments to be converted via cygpath\n    ROOTDIRSRAW=\x60find -L / -maxdepth 1 -mindepth 1 -type d 2>/dev/null\x60\n    SEP=\"\"\n    for dir in $ROOTDIRSRAW ; do\n        ROOTDIRS=\"$ROOTDIRS$SEP$dir\"\n        SEP=\"|\"\n    done\n    OURCYGPATTERN=\"(^($ROOTDIRS))\"\n    # Add a user-defined pattern to the cygpath arguments\n    if [ \"$GRADLE_CYGPATTERN\" != \"\" ] ; then\n        OURCYGPATTERN=\"$OURCYGPATTERN|($GRADLE_CYGPATTERN)\"\n    fi\n    # Now convert the arguments - kludge to limit ourselves to /bin/sh\n    i=0\n    for arg in \"$@\" ; do\n        CHECK=\x60echo \"$arg\"|egrep -c \"$OURCYGPATTERN\" -\x60\n        CHECK2=\x60echo \"$arg\"|egrep -c \"^-\"\x60                                 ### Determine if an option\n\n        if [ $CHECK -ne 0 ] && [ $CHECK2 -eq 0 ] ; then                    ### Added a condition\n            eval \x60echo args$i\x60=\x60cygpath --path --ignore --mixed \"$arg\"\x60\n        else\n            eval \x60echo args$i\x60=\\\"$arg\\\"\n        fi\n        i=$((i+1))\n    done\n    case $i in\n        (0) set -- ;;\n        (1) set -- \"$args0\" ;;\n        (2) set -- \"$args0\" \"$args1\" ;;\n        (3) set -- \"$args0\" \"$args1\" \"$args2\" ;;\n        (4) set -- \"$args0\" \"$args1\" \"$args2\" \"$args3\" ;;\n        (5) set -- \"$args0\" \"$args1\" \"$args2\" \"$args3\" \"$args4\" ;;\n        (6) set -- \"$args0\" \"$args1\" \"$args2\" \"$args3\" \"$args4\" \"$args5\" ;;\n        (7) set -- \"$args0\" \"$args1\" \"$args2\" \"$args3\" \"$args4\" \"$args5\" \"$args6\" ;;\n        (8) set -- \"$args0\" \"$args1\" \"$args2\" \"$args3\" \"$args4\" \"$args5\" \"$args6\" \"$args7\" ;;\n        (9) set -- \"$args0\" \"$args1\" \"$args2\" \"$args3\" \"$args4\" \"$args5\" \"$args6\" \"$args7\" \"$args8\" ;;\n    esac\nfi\n\n# Escape application args\nsave () \x7b\n    for i do printf %s\\\\%s \"$1\" \"$i\"; shift; done\n    echo \" \"\n\x7d\nAPP_ARGS=$(save \"$@\")\n\n# Collect all arguments for the java command\nset -- $DEFAULT_JVM_OPTS $JAVA_OPTS $GRADLE_OPTS \\\"-Dorg.gradle.appname=$APP_BASE_NAME\\\" -classpath \\\"$CLASSPATH\\\" org.gradle.wrapper.GradleWrapperMain \"$APP_ARGS\"\n\nexec \"$JAVACMD\" \"$@\"\n"

def app_build_gradle (project_name : String) : String :=
  "plugins \x7b\n    id \x27com.android.application\x27\n\x7d\n\nandroid \x7b\n    namespace \x27" ++ slugUH project_name ++ "\x27\n    compileSdk 34\n\n    defaultConfig \x7b\n        applicationId \"" ++ slugUH project_name ++ "\"\n        minSdk 21\n        targetSdk 34\n        versionCode 1\n        versionName \"1.0\"\n\n        testInstrumentationRunner \"androidx.test.runner.AndroidJUnitRunner\"\n    \x7d\n\n    buildTypes \x7b\n        release \x7b\n            minifyEnabled false\n            proguardFiles getDefaultProguardFile(\x27proguard-android-optimize.txt\x27), \x27proguard-rules.pro\x27\n        \x7d\n        debug \x7b\n            minifyEnabled false\n            debuggable true\n        \x7d\n    \x7d\n    \n    compileOptions \x7b\n        sourceCompatibility JavaVersion.VERSION_1_8\n        targetCompatibility JavaVersion.VERSION_1_8\n    \x7d\n    \n    // Handle resource conflicts and errors\n    packagingOptions \x7b\n        pickFirst \x27**/libc++_shared.so\x27\n        pickFirst \x27**/libjsc.so\x27\n        exclude \x27META-INF/DEPENDENCIES\x27\n        exclude \x27META-INF/LICENSE\x27\n        exclude \x27META-INF/LICENSE.txt\x27\n        exclude \x27META-INF/NOTICE\x27\n        exclude \x27META-INF/NOTICE.txt\x27\n    \x7d\n    \n    // Ignore lint errors that might block compilation\n    lintOptions \x7b\n        abortOnError false\n        checkReleaseBuilds false\n        ignoreWarnings true\n    \x7d\n    \n    // Handle AAPT errors\n    aaptOptions \x7b\n        ignoreAssetsPattern \"!.svn:!.git:!.ds_store:!*.scc:.*:!CVS:!thumbs.db:!picasa.ini:!*~\"\n        cruncherEnabled false\n    \x7d\n\x7d\n\ndependencies \x7b\n    implementation \x27androidx.appcompat:appcompat:1.6.1\x27\n    implementation \x27com.google.android.material:material:1.10.0\x27\n    implementation \x27androidx.constraintlayout:constraintlayout:2.1.4\x27\n    testImplementation \x27junit:junit:4.13.2\x27\n    androidTestImplementation \x27androidx.test.ext:junit:1.1.5\x27\n    androidTestImplementation \x27androidx.test.espresso:espresso-core:3.5.1\x27\n\x7d"

def settings_gradle (project_name : String) : String :=
  "pluginManagement \x7b\n    repositories \x7b\n        google()\n        mavenCentral()\n        gradlePluginPortal()\n    \x7d\n\x7d\ndependencyResolutionManagement \x7b\n    repositoriesMode.set(RepositoriesMode.FAIL_ON_PROJECT_REPOS)\n    repositories \x7b\n        google()\n        mavenCentral()\n    \x7d\n\x7d\n\nrootProject.name = \"" ++ project_name ++ "\"\ninclude \x27:app\x27\n"

def local_properties : String := "## This file must *NOT* be checked into Version Control Systems,\n# as it contains information specific to your local configuration.\n#\n# Location of the SDK. This is only used by Gradle.\n# For customization when using a Version Control System, please read the\n# header note.\n#sdk.dir=/path/to/android/sdk"

def project_build_gradle : String := "plugins \x7b\n    id \x27com.android.application\x27 version \x278.1.4\x27 apply false\n\x7d"

def gradle_properties : String := "org.gradle.jvmargs=-Xmx2048m -Dfile.encoding=UTF-8\nandroid.useAndroidX=true\nandroid.enableJetifier=true"

def main_activity_java (project_name : String) : String :=
  "package " ++ slugU project_name ++ ";\n\nimport android.app.Activity;\nimport android.os.Bundle;\n\npublic class MainActivity extends Activity \x7b\n    @Override\n    protected void onCreate(Bundle savedInstanceState) \x7b\n        super.onCreate(savedInstanceState);\n        // TODO: Set content view and implement your logic here\n        // setContentView(R.layout.activity_main);\n    \x7d\n\x7d\n"

def manifest_content (project_name : String) : String :=
  "<?xml version=\"1.0\" encoding=\"utf-8\"?>\n<manifest xmlns:android=\"http://schemas.android.com/apk/res/android\"\n    package=\"" ++ slugUH project_name ++ "\">\n\n    <application\n        android:allowBackup=\"true\"\n        android:icon=\"@mipmap/ic_launcher\"\n        android:label=\"@string/app_name\"\n        android:theme=\"@style/AppTheme\">\n        <activity\n            android:name=\".MainActivity\"\n            android:exported=\"true\">\n            <intent-filter>\n                <action android:name=\"android.intent.action.MAIN\" />\n                <category android:name=\"android.intent.category.LAUNCHER\" />\n            </intent-filter>\n        </activity>\n    </application>\n\n</manifest>"

def basic_layout : String := "<?xml version=\"1.0\" encoding=\"utf-8\"?>\n<LinearLayout xmlns:android=\"http://schemas.android.com/apk/res/android\"\n    android:layout_width=\"match_parent\"\n    android:layout_height=\"match_parent\"\n    android:orientation=\"vertical\"\n    android:gravity=\"center\">\n\n    <TextView\n        android:layout_width=\"wrap_content\"\n        android:layout_height=\"wrap_content\"\n        android:text=\"@string/app_name\"\n        android:textSize=\"18sp\" />\n\n</LinearLayout>\n"

def strings_xml (project_name : String) : String :=
  "<?xml version=\"1.0\" encoding=\"utf-8\"?>\n<resources>\n    <string name=\"app_name\">" ++ project_name ++ "</string>\n</resources>"

def styles_xml : String := "<?xml version=\"1.0\" encoding=\"utf-8\"?>\n<resources>\n    <style name=\"AppTheme\" parent=\"Theme.AppCompat.Light.DarkActionBar\">\n        <!-- Customize your theme here. -->\n    </style>\n</resources>"

def proguard_rules : String := "# Add project specific ProGuard rules here.\n# You can control the set of applied configuration files using the\n# proguardFiles setting in build.gradle.\n#\n# For more details, see\n#   http://developer.android.com/guide/developing/tools/proguard.html\n\n# If your project uses WebView with JS, uncomment the following\n# and specify the fully qualified class name to the JavaScript interface\n# class:\n#-keepclassmembers class fqcn.of.javascript.interface.for.webview \x7b\n#   public *;\n#\x7d\n\n# Uncomment this to preserve the line number information for\n# debugging stack traces.\n#-keepattributes SourceFile,LineNumberTable\n\n# If you keep the line number information, uncomment this to\n# hide the original source file name.\n#-renamesourcefileattribute SourceFile"

def readme_content (project_name : String) : String :=
  "# " ++ project_name ++ " - Android Studio Project\n\nThis project was exported from APK Editor and can be imported into Android Studio.\n\n## Import Instructions:\n\n1. Extract this ZIP file to a folder on your computer\n2. Open Android Studio\n3. Click \"File\" > \"Open\" (or \"Open an Existing Project\")\n4. Navigate to and select the extracted project folder (the one containing build.gradle)\n5. Click \"OK\" to import\n6. Wait for Gradle sync to complete\n7. If prompted, download any missing SDK components\n\n## Important Notes:\n\n- Make sure you have Android SDK installed\n- You may need to update the SDK versions in build.gradle to match your installed components\n- Create a local.properties file with your SDK path if needed\n\n## Project Structure:\n\n- \x60app/src/main/AndroidManifest.xml\x60 - Application manifest\n- \x60app/src/main/res/\x60 - Resources (layouts, drawables, values)\n- \x60app/src/main/assets/\x60 - Additional APK files\n\n## Troubleshooting Common Gradle Errors:\n\n### Content Not Allowed in Prolog Error:\nThis error occurs when XML files have invalid content at the beginning:\n\n1. **XML Validation:**\n   - The export automatically filters corrupted XML files\n   - If errors persist, manually check res/ folders for invalid XML files\n   - Look for files that don\x27t start with \x60<?xml version=\"1.0\" encoding=\"utf-8\"?>\x60\n\n2. **Clean Resource Directories:**\n   - Delete problematic files from res/drawable/, res/layout/, res/values/\n   - Focus on files with unusual names or very small file sizes\n\n### Multiple Task Action Failures:\nIf you encounter \"Multiple task action failures occurred\", try these solutions:\n\n1. **Clean and Rebuild:**\n   \x60\x60\x60\n   ./gradlew clean\n   ./gradlew assembleDebug\n   \x60\x60\x60\n\n2. **Invalidate Caches:**\n   - In Android Studio: File > Invalidate Caches > Invalidate and Restart\n\n3. **Update build.gradle versions:**\n   - Update compileSdk to your installed SDK version\n   - Update targetSdk to match compileSdk or lower\n\n4. **Resource Issues:**\n   - Check for duplicate resource names in different folders\n   - Remove any corrupted XML files from res/ directories\n   - Delete problematic drawable files\n\n5. **AAPT Errors:**\n   - The build.gradle already includes AAPT error handling\n   - If issues persist, try disabling resource shrinking\n\n### XML Processing Errors:\n- Remove files from drawable-v* folders if they cause issues\n- Delete color-v* directories that reference missing resources\n- Check layout files for malformed XML structure\n\n### 9-Patch Errors:\n- All .9.png files have been filtered out to prevent compilation errors\n- If you need 9-patch drawables, create new ones using Android Studio\x27s editor\n\n### Resource Conflicts:\n- Some resources may have conflicting definitions\n- Check values/styles.xml and colors.xml for duplicate entries\n- Remove or rename conflicting resources\n\n### Memory Issues:\n- If Gradle runs out of memory, add to gradle.properties:\n  \x60\x60\x60\n  org.gradle.jvmargs=-Xmx4096m -Dfile.encoding=UTF-8\n  \x60\x60\x60\n\n### Specific Error Fixes:\n- **ParseError at [row,col]:[1,1]**: Delete the XML file causing the error\n- **Unexpected namespace prefix**: Remove or simplify problematic XML attributes\n- **Resource not found**: Comment out or remove references to missing resources\n\n## Building:\n\n1. Import the project into Android Studio\n2. Sync the project with Gradle files\n3. Clean and rebuild: \x60./gradlew clean assembleDebug\x60\n4. If errors persist, check the \"Build\" tab for specific issues\n\n## Source Code Recovery:\n\n- This export contains only resources, not source code\n- Use tools like jadx, dex2jar, or JADX-GUI for Java/Kotlin source recovery\n- Decompiled source may need manual cleanup and debugging\n\n## Additional Tips:\n\n- Start with a minimal AndroidManifest.xml and add permissions as needed\n- Test build frequently when adding back filtered resources\n- Consider creating a new project and copying resources gradually if issues persist\n"


/-- The target path of the main manifest inside the export archive. -/
def mainManifestPath : String := "app/src/main/AndroidManifest.xml"

/-- The scaffold entries written by `create_android_studio_export` before
the project tree is walked, in `writestr` order. -/
def scaffold_head (project_name : String) : List (String × String) :=
  [("gradle/wrapper/gradle-wrapper.properties", gradle_wrapper_properties),
   ("gradle/wrapper/gradle-wrapper.jar", ""),
   ("gradlew.bat", gradle_wrapper_bat),
   ("gradlew", gradle_wrapper_content),
   ("app/build.gradle", app_build_gradle project_name),
   ("settings.gradle", settings_gradle project_name),
   ("local.properties", local_properties),
   ("build.gradle", project_build_gradle),
   ("gradle.properties", gradle_properties),
   ("app/src/main/java/" ++ slugU project_name ++ "/MainActivity.java",
    main_activity_java project_name),
   (mainManifestPath, manifest_content project_name)]

/-- The scaffold entries written after the walk, in `writestr` order. -/
def scaffold_tail (project_name : String) : List (String × String) :=
  [("app/src/main/res/layout/activity_main.xml", basic_layout),
   ("app/src/main/res/values/strings.xml", strings_xml project_name),
   ("app/src/main/res/values/styles.xml", styles_xml),
   ("app/proguard-rules.pro", proguard_rules),
   ("README.md", readme_content project_name)]

/-- The `os.walk` loop of `create_android_studio_export` over the
project-relative paths `walk` of the regular files under `project_dir`
(in walk order), with the `manifest_copied` flag threaded through.
For each path: `should_skip_file` (called on the *relative* path) may drop
it; a path under `res/` is written to `app/src/main/`; the root
`AndroidManifest.xml` (if the flag is still unset) is re-read from the
project file and appended at the manifest target path only when its
content is non-blank and contains `<?xml`, every other outcome of that
branch being `continue`; every other path is written under
`app/src/main/assets/`.  A failing `zip_ref.write` (source bytes
unreadable, `readBin = none`) is logged and skipped. -/
def export_walk (env : ExportEnv) (project_dir : String)
    (manifest_copied : Bool) : List String → List (String × String)
  | [] => []
  | arc_path :: rest =>
    if should_skip_file env.fs env.xmlParses arc_path then
      export_walk env project_dir manifest_copied rest
    else if pyStartsWith arc_path "res/" then
      (match env.fs.readBin (project_dir ++ "/" ++ arc_path) with
       | some b => [("app/src/main/" ++ arc_path, b)]
       | none => [])
      ++ export_walk env project_dir manifest_copied rest
    else if arc_path == "AndroidManifest.xml" && !manifest_copied then
      match env.fs.readText (project_dir ++ "/" ++ arc_path) with
      | some original =>
        if pyStrip original != "" && pyContains original "<?xml" then
          (mainManifestPath, original) :: export_walk env project_dir true rest
        else
          export_walk env project_dir manifest_copied rest
      | none => export_walk env project_dir manifest_copied rest
    else
      (match env.fs.readBin (project_dir ++ "/" ++ arc_path) with
       | some b => [("app/src/main/assets/" ++ arc_path, b)]
       | none => [])
      ++ export_walk env project_dir manifest_copied rest

/-- Result of `create_android_studio_export`: the archive's entry list in
write order (duplicate names possible: `zipfile` appends), and the
returned boolean. -/
structure ExportResult where
  entries : List (String × String)
  ok : Bool
deriving DecidableEq

/-- `create_android_studio_export`: scaffold head, filtered/remapped walk,
scaffold tail.  The whole body sits in one `try`: an export archive that
cannot be created (`zipOk = false`) yields `False` and no entries. -/
def create_android_studio_export (env : ExportEnv)
    (project_dir export_path project_name : String) (walk : List String) :
    ExportResult :=
  if env.zipOk then
    { entries := scaffold_head project_name
                   ++ export_walk env project_dir false walk
                   ++ scaffold_tail project_name,
      ok := true }
  else
    { entries := [], ok := false }

/-- The contents stored at archive path `p`, in entry order. -/
def entriesAt (es : List (String × String)) (p : String) : List String :=
  (es.filter (fun e => e.1 == p)).map (fun e => e.2)

/-! ## Concrete environments and inputs used in the theorems below -/

/-- Identity tool effect for environments where the external tool is
irrelevant. -/
def noToolEffect : List (String × String) → List (String × String) :=
  fun files => files

/-- Environment with an existing `debug.keystore` and every external
command failing (e.g. `jarsigner` absent: the launch failure is caught by
`_run_command`, which returns `False`). -/
def envSignFail : EditorEnv :=
  { apktool_path := some "apktool.jar", java_path := some "java",
    run_command := fun _ => false,
    path_exists := fun p => p == "debug.keystore",
    getsize := fun _ => 0,
    makedirs_ok := fun _ => true,
    open_zip := fun _ => none,
    tool_effect := noToolEffect,
    zip_create_ok := fun _ => true }

/-- Environment in which no path exists at all. -/
def envNothingExists : EditorEnv :=
  { apktool_path := none, java_path := none,
    run_command := fun _ => false,
    path_exists := fun _ => false,
    getsize := fun _ => 0,
    makedirs_ok := fun _ => true,
    open_zip := fun _ => none,
    tool_effect := noToolEffect,
    zip_create_ok := fun _ => true }

/-- Environment in which the APK exists but `os.makedirs` raises (for
example the output path is occupied by a regular file, which
`exist_ok=True` does not excuse). -/
def envMakedirsFails : EditorEnv :=
  { apktool_path := none, java_path := none,
    run_command := fun _ => false,
    path_exists := fun _ => true,
    getsize := fun _ => 0,
    makedirs_ok := fun _ => false,
    open_zip := fun _ => none,
    tool_effect := noToolEffect,
    zip_create_ok := fun _ => true }

/-- Fallback-mode environment (decompiler probe succeeded, runtime probe
failed) whose package archive holds one file entry. -/
def envFallback : EditorEnv :=
  { apktool_path := some "apktool.jar", java_path := none,
    run_command := fun _ => false,
    path_exists := fun p => p != "debug.keystore",
    getsize := fun _ => 7,
    makedirs_ok := fun _ => true,
    open_zip := fun p =>
      if p == "app.apk" then some [("x.txt", "X")] else none,
    tool_effect := noToolEffect,
    zip_create_ok := fun _ => true }

/-- A pre-existing file store holding one unrelated file. -/
def stKeep : FsState :=
  { files := [("keep.txt", "K")], dirs := ["old"] }

/-- A well-formed non-empty XML layout used as content of a valid
resource file. -/
def xmlLayoutDoc : String := "<LinearLayout></LinearLayout>"

/-- Export-side filesystem in which exactly one valid XML resource file
is readable (both as the walk-relative path and under the project
directory). -/
def fsValidXml : AppFS :=
  { path_exists := fun _ => true,
    getsize := fun _ => 1024,
    readText := fun p =>
      if p == "res/layout/main.xml" || p == "proj/res/layout/main.xml" then
        some xmlLayoutDoc
      else none,
    readBin := fun _ => none }

/-- Parser behaviour consistent with `ET.fromstring` on the concrete
documents used here: it accepts exactly the well-formed ones. -/
def parsesLayoutDoc : String → Bool := fun s => s == xmlLayoutDoc

/-- Original manifest that is well-formed, non-empty and *begins* with an
XML declaration. -/
def declManifestDoc : String :=
  "<?xml version=\"1.0\" encoding=\"utf-8\"?><manifest></manifest>"

/-- Original manifest that is well-formed and non-empty but does *not*
begin with an XML declaration: the substring `<?xml` only occurs inside a
comment, which `'<?xml' in content` still finds. -/
def commentManifestDoc : String := "<manifest><!-- <?xml --></manifest>"

/-- Export environment whose project tree holds a root manifest with
content `declManifestDoc`, readable both at the walk-relative key and
under the project directory `proj`. -/
def envDeclManifest : ExportEnv :=
  { fs := { path_exists := fun _ => true,
            getsize := fun _ => 64,
            readText := fun p =>
              if p == "AndroidManifest.xml"
                 || p == "proj/AndroidManifest.xml" then
                some declManifestDoc
              else none,
            readBin := fun _ => none },
    xmlParses := fun s => s == declManifestDoc,
    zipOk := true }

/-- Export environment whose project tree holds a root manifest with
content `commentManifestDoc`. -/
def envCommentManifest : ExportEnv :=
  { fs := { path_exists := fun _ => true,
            getsize := fun _ => 64,
            readText := fun p =>
              if p == "AndroidManifest.xml"
                 || p == "proj/AndroidManifest.xml" then
                some commentManifestDoc
              else none,
            readBin := fun _ => none },
    xmlParses := fun s => s == commentManifestDoc,
    zipOk := true }

/-- A small archive with a directory entry and three regular files, with
pairwise distinct normalised names. -/
def roundTripArchive : List (String × String) :=
  [("AndroidManifest.xml", "<m/>"), ("classes.dex", "DEX"),
   ("res/", ""), ("res/values/strings.xml", "<r/>")]

/-- A walk order of the extracted tree differing from archive order. -/
def roundTripOrder : List String :=
  ["res/values/strings.xml", "AndroidManifest.xml", "classes.dex"]

/-- Split a character list at every slash (structural version of
splitting a POSIX path into components). -/
def splitSlash : List Char → List (List Char)
  | [] => [[]]
  | c :: rest =>
    if c = '/' then [] :: splitSlash rest
    else
      match splitSlash rest with
      | [] => [[c]]
      | p :: ps => (c :: p) :: ps

/-- A zip entry name that is a plain relative path: nonempty, and every
slash-separated component is nonempty and neither `.` nor `..`.  On such
names CPython's `extractall` component normalisation is the identity, so
`extractall_into` writing the name verbatim is faithful. -/
def safe_entry_name (name : String) : Bool :=
  !name.data.isEmpty
    && (splitSlash name.data).all
        (fun comp => !comp.isEmpty && comp != ['.'] && comp != ['.', '.'])

/-- Directory entries only create directories, so only file entries need
plain names. -/
def safe_zip_entry (name : String) : Bool :=
  if is_dir_entry name then true else safe_entry_name name

/-- A well-formed package archive in the sense of the round-trip
property: no duplicate entry names, and every entry name is a plain
relative path. -/
def well_formed_archive (entries : List (String × String)) : Prop :=
  (entries.map (fun e => e.1)).Nodup
    ∧ ∀ e ∈ entries, safe_zip_entry e.1 = true

/-! ## Helper lemmas -/

theorem str_data_append (a b : String) : (a ++ b).data = a.data ++ b.data := rfl

theorem str_eq_of_data {a b : String} (h : a.data = b.data) : a = b :=
  String.ext h

theorem pyEndsWith_excl (s a b : String) (h : pyEndsWith s a = true)
    (hab : ¬ a.data <:+ b.data) (hba : ¬ b.data <:+ a.data) :
    pyEndsWith s b = false := by
  unfold pyEndsWith at h ⊢
  rw [List.isSuffixOf_iff_suffix] at h
  cases hb : b.data.isSuffixOf s.data with
  | false => rfl
  | true =>
    rw [List.isSuffixOf_iff_suffix] at hb
    rcases List.suffix_or_suffix_of_suffix h hb with hs | hs
    · exact absurd hs hab
    · exact absurd hs hba

theorem lookup_map_replace (p c q : String) (h : p ≠ q)
    (st : List (String × String)) :
    lookupFile q (st.map (fun e => if e.1 == p then (p, c) else e))
      = lookupFile q st := by
  induction st with
  | nil => rfl
  | cons e rest ih =>
    rw [List.map_cons]
    by_cases hp : e.1 = p
    · have hfe : (if e.1 == p then (p, c) else e) = (p, c) := by simp [hp]
      unfold lookupFile
      rw [hfe, List.find?_cons_of_neg _ (by simp [h]),
        List.find?_cons_of_neg _ (by simp [hp, h])]
      exact ih
    · have hfe : (if e.1 == p then (p, c) else e) = e := by simp [hp]
      rw [hfe]
      by_cases hq : e.1 = q
      · unfold lookupFile
        rw [List.find?_cons_of_pos _ (by simp [hq]),
          List.find?_cons_of_pos _ (by simp [hq])]
      · unfold lookupFile
        rw [List.find?_cons_of_neg _ (by simp [hq]),
          List.find?_cons_of_neg _ (by simp [hq])]
        exact ih

theorem lookup_append_single_ne (p c q : String) (h : p ≠ q)
    (st : List (String × String)) :
    lookupFile q (st ++ [(p, c)]) = lookupFile q st := by
  induction st with
  | nil =>
    unfold lookupFile
    rw [List.nil_append, List.find?_cons_of_neg _ (by simp [h])]
  | cons e rest ih =>
    rw [List.cons_append]
    by_cases hq : e.1 = q
    · unfold lookupFile
      rw [List.find?_cons_of_pos _ (by simp [hq]),
        List.find?_cons_of_pos _ (by simp [hq])]
    · unfold lookupFile
      rw [List.find?_cons_of_neg _ (by simp [hq]),
        List.find?_cons_of_neg _ (by simp [hq])]
      exact ih

theorem lookupFile_writeFile_ne (st : List (String × String))
    (p c q : String) (h : p ≠ q) :
    lookupFile q (writeFile st p c) = lookupFile q st := by
  unfold writeFile
  split
  · exact lookup_map_replace p c q h st
  · exact lookup_append_single_ne p c q h st

theorem extractall_lookup (out q : String)
    (entries : List (String × String)) (files : List (String × String))
    (h : ∀ e ∈ entries, is_dir_entry e.1 = false → out ++ "/" ++ e.1 ≠ q) :
    lookupFile q (extractall_into out entries files) = lookupFile q files := by
  induction entries generalizing files with
  | nil => rfl
  | cons e rest ih =>
    unfold extractall_into
    rw [ih _ (fun x hx hdx => h x (List.mem_cons_of_mem e hx) hdx)]
    cases hd : is_dir_entry e.1 with
    | true => rfl
    | false =>
      rw [if_neg (by simp)]
      exact lookupFile_writeFile_ne files (out ++ "/" ++ e.1) e.2 q
        (h e (List.mem_cons_self e rest) hd)

theorem filterMap_congr_mem {α β : Type} (l : List α) (f g : α → Option β)
    (h : ∀ a ∈ l, f a = g a) : l.filterMap f = l.filterMap g := by
  induction l with
  | nil => rfl
  | cons a rest ih =>
    simp only [List.filterMap_cons, h a (List.mem_cons_self a rest)]
    rw [ih (fun x hx => h x (List.mem_cons_of_mem a hx))]

/-! ## C2: result of `sign` -/

/-- C2, counterexample.  The claim says `sign` returns true for every
package path, regardless of signing-invocation failure.  In an
environment where `debug.keystore` already exists and the `jarsigner`
invocation fails (absent tool, nonzero exit or timeout — all of which
`_run_command` converts to `False`), `_sign_apk` returns that `False`. -/
theorem sign_apk_false_cex : sign_apk envSignFail "app.apk" = false := rfl

/-- C2, amended.  `sign` returns true when no credential exists and none
can be created (and on an exception inside the operation); but when a
credential is available — pre-existing or freshly generated — `sign`
returns the outcome of the `jarsigner` invocation, which is `false` on
nonzero exit, timeout or launch failure. -/
theorem sign_apk_outcome (env : EditorEnv) (apk_path : String) :
    (create_debug_keystore env = none → sign_apk env apk_path = true)
    ∧ (∀ ks, create_debug_keystore env = some ks →
        sign_apk env apk_path = env.run_command (jarsigner_cmd ks apk_path)) := by
  constructor
  · intro h
    unfold sign_apk
    rw [h]
  · intro ks h
    unfold sign_apk
    rw [h]

/-- C2, witness for `sign_apk_outcome`: in `envSignFail` the keystore
exists, and `sign` returns exactly the `jarsigner` outcome. -/
theorem sign_apk_outcome_witness :
    create_debug_keystore envSignFail = some keystorePath
    ∧ sign_apk envSignFail "app.apk"
        = envSignFail.run_command (jarsigner_cmd keystorePath "app.apk") :=
  ⟨by decide, (sign_apk_outcome envSignFail "app.apk").2 keystorePath (by decide)⟩

/-! ## C6: decompile with a missing package -/

/-- C6, counterexample.  The claim says the output directory is created.
In fact `decompile_apk` returns `False` *before* the `os.makedirs` call:
for a missing package nothing is created. -/
theorem decompile_missing_cex :
    ¬ ∃ r, decompile_apk envNothingExists { files := [], dirs := [] }
        "missing.apk" "projects/project_1" = .ok r
        ∧ "projects/project_1" ∈ r.fs.dirs := by
  intro ⟨r, heq, hmem⟩
  rw [show decompile_apk envNothingExists { files := [], dirs := [] }
        "missing.apk" "projects/project_1"
      = (.ok { ok := false, fs := { files := [], dirs := [] },
               tool_cmds := [], created := none } : Except PyErr OpResult)
    from rfl] at heq
  cases Except.ok.inj heq
  simp at hmem

/-- C6, amended.  `decompile(packagePath, outputDir)` with a missing
package returns `False` and has no filesystem effect at all: the output
directory is *not* created and nothing is extracted. -/
theorem decompile_missing (env : EditorEnv) (st : FsState)
    (apk_path output_dir : String) (h : env.path_exists apk_path = false) :
    decompile_apk env st apk_path output_dir
      = .ok { ok := false, fs := st, tool_cmds := [], created := none } := by
  unfold decompile_apk
  rw [h]
  rfl

/-- C6, witness for `decompile_missing`. -/
theorem decompile_missing_witness :
    envNothingExists.path_exists "missing.apk" = false
    ∧ decompile_apk envNothingExists stKeep "missing.apk" "out"
        = .ok { ok := false, fs := stKeep, tool_cmds := [], created := none } :=
  ⟨rfl, decompile_missing envNothingExists stKeep "missing.apk" "out" rfl⟩

/-! ## C7: fault propagation across the public boundaries -/

/-- Whether an `Except`-valued operation returned normally. -/
def exceptOk {ε α : Type} : Except ε α → Bool
  | .ok _ => true
  | .error _ => false

/-- C7, counterexample.  The claim says no public operation ever lets a
fault propagate.  But the `os.makedirs(output_dir, exist_ok=True)` in
`decompile_apk` is outside every `try`: when it raises (for instance the
output path is occupied by a regular file), the `OSError` escapes to the
caller. -/
theorem decompile_raises_cex :
    decompile_apk envMakedirsFails { files := [], dirs := [] }
      "app.apk" "out" = .error .osError := rfl

/-- C7, amended.  The only fault that can cross a public operation
boundary is the unguarded directory creation in `decompile` and `compile`:
each raises exactly when its input path exists and the corresponding
`os.makedirs` fails, and returns a boolean in every other circumstance
(archive failures, process failures and signing failures included);
`exportBundle` returns normally for every environment, failing exactly
when the output archive cannot be opened.  (`getInfo` and `readiness`
contain no raise site at all in the embedding: they are total functions
into their result records.) -/
theorem operation_boundaries (env : EditorEnv) (st st2 : FsState)
    (apk_path output_dir project_dir output_path : String)
    (xenv : ExportEnv) (pd ep pn : String) (walk : List String) :
    exceptOk (decompile_apk env st apk_path output_dir)
        = (!env.path_exists apk_path || env.makedirs_ok output_dir)
    ∧ exceptOk (compile_apk env st2 project_dir output_path)
        = (!env.path_exists project_dir
            || env.makedirs_ok (pyDirname output_path))
    ∧ (create_android_studio_export xenv pd ep pn walk).ok = xenv.zipOk := by
  refine ⟨?_, ?_, ?_⟩
  · unfold decompile_apk
    cases hp : env.path_exists apk_path
    · simp [exceptOk]
    · cases hm : env.makedirs_ok output_dir
      · simp [exceptOk]
      · rcases h1 : env.apktool_path with _ | tool
        · cases hz : env.open_zip apk_path <;> simp [exceptOk, hz]
        · rcases h2 : env.java_path with _ | java
          · cases hz : env.open_zip apk_path <;> simp [exceptOk, hz]
          · simp [exceptOk]
  · unfold compile_apk
    cases hp : env.path_exists project_dir
    · simp [exceptOk]
    · cases hm : env.makedirs_ok (pyDirname output_path)
      · simp [exceptOk]
      · rcases h1 : env.apktool_path with _ | tool
        · cases hc : env.zip_create_ok output_path <;> simp [exceptOk, hc]
        · rcases h2 : env.java_path with _ | java
          · cases hc : env.zip_create_ok output_path <;> simp [exceptOk, hc]
          · cases hr : env.run_command
              [java, "-jar", tool, "b", project_dir, "-o", output_path] <;>
              simp [exceptOk, hr]
  · unfold create_android_studio_export
    cases hz : xenv.zipOk <;> simp

/-! ## Branch-reduction lemmas for the two transform operations -/

theorem decompile_apk_run (env : EditorEnv) (st : FsState)
    (apk_path output_dir tool java : String)
    (hp : env.path_exists apk_path = true)
    (hm : env.makedirs_ok output_dir = true)
    (h1 : env.apktool_path = some tool) (h2 : env.java_path = some java) :
    decompile_apk env st apk_path output_dir
      = .ok { ok := env.run_command
                [java, "-jar", tool, "d", apk_path, "-o", output_dir, "-f"],
              fs := { files := env.tool_effect st.files,
                      dirs := st.dirs ++ [output_dir] },
              tool_cmds := [[java, "-jar", tool, "d", apk_path, "-o",
                             output_dir, "-f"]],
              created := none } := by
  unfold decompile_apk
  rw [h1, h2]
  simp only [hp, hm, Bool.not_true, Bool.false_eq_true, if_false]

theorem decompile_apk_fb (env : EditorEnv) (st : FsState)
    (apk_path output_dir : String)
    (hone : env.apktool_path = none ∨ env.java_path = none)
    (hp : env.path_exists apk_path = true)
    (hm : env.makedirs_ok output_dir = true) :
    decompile_apk env st apk_path output_dir
      = match env.open_zip apk_path with
        | some entries =>
          .ok { ok := true,
                fs := { files := extractall_into output_dir entries st.files,
                        dirs := st.dirs ++ [output_dir] },
                tool_cmds := [], created := none }
        | none =>
          .ok { ok := false,
                fs := { files := st.files, dirs := st.dirs ++ [output_dir] },
                tool_cmds := [], created := none } := by
  unfold decompile_apk
  simp only [hp, hm, Bool.not_true, Bool.false_eq_true, if_false]
  rcases hone with h1 | h2
  · rw [h1]
  · rcases ha : env.apktool_path with _ | tool
    · rfl
    · rw [h2]

theorem compile_apk_run (env : EditorEnv) (st : FsState)
    (project_dir output_path tool java : String)
    (hpd : env.path_exists project_dir = true)
    (hmo : env.makedirs_ok (pyDirname output_path) = true)
    (h1 : env.apktool_path = some tool) (h2 : env.java_path = some java) :
    compile_apk env st project_dir output_path
      = if env.run_command
            [java, "-jar", tool, "b", project_dir, "-o", output_path] then
          .ok { ok := sign_apk env output_path,
                fs := { files := env.tool_effect st.files,
                        dirs := st.dirs ++ [pyDirname output_path] },
                tool_cmds := [[java, "-jar", tool, "b", project_dir, "-o",
                               output_path]],
                created := none }
        else
          .ok { ok := false,
                fs := { files := env.tool_effect st.files,
                        dirs := st.dirs ++ [pyDirname output_path] },
                tool_cmds := [[java, "-jar", tool, "b", project_dir, "-o",
                               output_path]],
                created := none } := by
  unfold compile_apk
  rw [h1, h2]
  simp only [hpd, hmo, Bool.not_true, Bool.false_eq_true, if_false]

theorem compile_apk_fb (env : EditorEnv) (st : FsState)
    (project_dir output_path : String)
    (hone : env.apktool_path = none ∨ env.java_path = none)
    (hpd : env.path_exists project_dir = true)
    (hmo : env.makedirs_ok (pyDirname output_path) = true) :
    compile_apk env st project_dir output_path
      = if env.zip_create_ok output_path then
          .ok { ok := true,
                fs := { files := st.files,
                        dirs := st.dirs ++ [pyDirname output_path] },
                tool_cmds := [],
                created := some (files_under st.files project_dir) }
        else
          .ok { ok := false,
                fs := { files := st.files,
                        dirs := st.dirs ++ [pyDirname output_path] },
                tool_cmds := [], created := none } := by
  unfold compile_apk
  simp only [hpd, hmo, Bool.not_true, Bool.false_eq_true, if_false]
  rcases hone with h1 | h2
  · rw [h1]
  · rcases ha : env.apktool_path with _ | tool
    · rfl
    · rw [h2]

/-! ## C9: capability-based mode selection -/

/-- C9.  Native (tool-backed) mode — observable as a non-empty list of
decompiler invocations — is selected iff *both* the decompiler probe and
the runtime probe succeeded, for `decompile` and for `compile` alike;
with the runtime absent both operations run in archive-only fallback mode
(no invocation; the result is the archive operation's outcome), while
`readiness().simulation_mode` depends only on the decompiler probe, so it
reports `false` whenever the decompiler was found, runtime or not. -/
theorem mode_selection (env : EditorEnv) (st st2 : FsState)
    (apk_path output_dir project_dir output_path : String)
    (hp : env.path_exists apk_path = true)
    (hm : env.makedirs_ok output_dir = true)
    (hpd : env.path_exists project_dir = true)
    (hmo : env.makedirs_ok (pyDirname output_path) = true) :
    (∃ r, decompile_apk env st apk_path output_dir = .ok r
      ∧ ((r.tool_cmds ≠ [])
          ↔ (env.apktool_path.isSome = true ∧ env.java_path.isSome = true))
      ∧ (env.java_path = none →
          r.tool_cmds = [] ∧ r.ok = (env.open_zip apk_path).isSome))
    ∧ (∃ r, compile_apk env st2 project_dir output_path = .ok r
      ∧ ((r.tool_cmds ≠ [])
          ↔ (env.apktool_path.isSome = true ∧ env.java_path.isSome = true))
      ∧ (env.java_path = none →
          r.tool_cmds = [] ∧ r.ok = env.zip_create_ok output_path))
    ∧ (is_ready env).simulation_mode = env.apktool_path.isNone
    ∧ (env.apktool_path.isSome = true →
        (is_ready env).simulation_mode = false) := by
  refine ⟨?_, ?_, rfl, ?_⟩
  · rcases h1 : env.apktool_path with _ | tool
    · rw [decompile_apk_fb env st apk_path output_dir (Or.inl h1) hp hm]
      rcases hz : env.open_zip apk_path with _ | entries
      · exact ⟨_, rfl, by simp, fun _ => ⟨rfl, rfl⟩⟩
      · exact ⟨_, rfl, by simp, fun _ => ⟨rfl, rfl⟩⟩
    · rcases h2 : env.java_path with _ | java
      · rw [decompile_apk_fb env st apk_path output_dir (Or.inr h2) hp hm]
        rcases hz : env.open_zip apk_path with _ | entries
        · exact ⟨_, rfl, by simp, fun _ => ⟨rfl, rfl⟩⟩
        · exact ⟨_, rfl, by simp, fun _ => ⟨rfl, rfl⟩⟩
      · rw [decompile_apk_run env st apk_path output_dir tool java hp hm h1 h2]
        exact ⟨_, rfl, by simp, fun hj => Option.noConfusion hj⟩
  · rcases h1 : env.apktool_path with _ | tool
    · rw [compile_apk_fb env st2 project_dir output_path (Or.inl h1) hpd hmo]
      cases hc : env.zip_create_ok output_path
      · exact ⟨_, rfl, by simp, fun _ => ⟨rfl, rfl⟩⟩
      · exact ⟨_, rfl, by simp, fun _ => ⟨rfl, rfl⟩⟩
    · rcases h2 : env.java_path with _ | java
      · rw [compile_apk_fb env st2 project_dir output_path (Or.inr h2) hpd hmo]
        cases hc : env.zip_create_ok output_path
        · exact ⟨_, rfl, by simp, fun _ => ⟨rfl, rfl⟩⟩
        · exact ⟨_, rfl, by simp, fun _ => ⟨rfl, rfl⟩⟩
      · rw [compile_apk_run env st2 project_dir output_path tool java hpd hmo h1 h2]
        cases hr : env.run_command
            [java, "-jar", tool, "b", project_dir, "-o", output_path]
        · exact ⟨_, rfl, by simp, fun hj => Option.noConfusion hj⟩
        · exact ⟨_, rfl, by simp, fun hj => Option.noConfusion hj⟩
  · intro h
    rcases ha : env.apktool_path with _ | tool
    · rw [ha] at h
      simp at h
    · simp [is_ready, ha]

/-- C9, witness for `mode_selection`: decompiler present, runtime absent. -/
theorem mode_selection_witness :
    envFallback.path_exists "app.apk" = true
    ∧ ((∃ r, decompile_apk envFallback stKeep "app.apk" "out" = .ok r
        ∧ ((r.tool_cmds ≠ [])
            ↔ (envFallback.apktool_path.isSome = true
                ∧ envFallback.java_path.isSome = true))
        ∧ (envFallback.java_path = none →
            r.tool_cmds = [] ∧ r.ok = (envFallback.open_zip "app.apk").isSome))
      ∧ (∃ r, compile_apk envFallback stKeep "proj" "temp/out.apk" = .ok r
        ∧ ((r.tool_cmds ≠ [])
            ↔ (envFallback.apktool_path.isSome = true
                ∧ envFallback.java_path.isSome = true))
        ∧ (envFallback.java_path = none →
            r.tool_cmds = [] ∧ r.ok = envFallback.zip_create_ok "temp/out.apk"))
      ∧ (is_ready envFallback).simulation_mode = envFallback.apktool_path.isNone
      ∧ (envFallback.apktool_path.isSome = true →
          (is_ready envFallback).simulation_mode = false)) :=
  ⟨by decide,
   mode_selection envFallback stKeep stKeep "app.apk" "out" "proj"
     "temp/out.apk" (by decide) (by decide) (by decide) (by decide)⟩

/-! ## C10: fallback decompile does not clear the output directory -/

/-- C10.  In fallback mode, `decompile` merely creates the output
directory with exist-ok semantics (the directory list grows, nothing is
removed) and writes the archive's entries into it: any pre-existing file
whose path is not an extracted entry path keeps its exact content. -/
theorem fallback_frame (env : EditorEnv) (st : FsState)
    (apk_path output_dir q : String) (entries : List (String × String))
    (hone : env.apktool_path = none ∨ env.java_path = none)
    (hp : env.path_exists apk_path = true)
    (hm : env.makedirs_ok output_dir = true)
    (hz : env.open_zip apk_path = some entries)
    (hq : ∀ e ∈ entries, is_dir_entry e.1 = false →
        output_dir ++ "/" ++ e.1 ≠ q) :
    ∃ r, decompile_apk env st apk_path output_dir = .ok r
      ∧ r.ok = true
      ∧ lookupFile q r.fs.files = lookupFile q st.files
      ∧ r.fs.dirs = st.dirs ++ [output_dir] := by
  rw [decompile_apk_fb env st apk_path output_dir hone hp hm, hz]
  exact ⟨_, rfl, rfl, extractall_lookup output_dir q entries st.files hq, rfl⟩

/-- C10, witness for `fallback_frame`: the pre-existing `keep.txt` is
untouched by extracting `x.txt`. -/
theorem fallback_frame_witness :
    envFallback.open_zip "app.apk" = some [("x.txt", "X")]
    ∧ ∃ r, decompile_apk envFallback stKeep "app.apk" "out" = .ok r
      ∧ r.ok = true
      ∧ lookupFile "keep.txt" r.fs.files = lookupFile "keep.txt" stKeep.files
      ∧ r.fs.dirs = stKeep.dirs ++ ["out"] :=
  ⟨by decide,
   fallback_frame envFallback stKeep "app.apk" "out" "keep.txt"
     [("x.txt", "X")] (Or.inr rfl) (by decide) (by decide) (by decide)
     (by decide)⟩

/-! ## C4: package validity inspection -/

/-- C4.  `getInfo(P).valid` holds iff the package opens as an archive
that contains the manifest entry and at least one `.dex` entry; and the
entry count is present exactly when the archive opened (with the entry
list's length), so it is omitted on any open failure.  The operation is a
total function of the environment: every open/parse fault is caught. -/
theorem get_apk_info_valid (env : EditorEnv) (apk_path : String) :
    ((get_apk_info env apk_path).valid = true
      ↔ ∃ es, env.open_zip apk_path = some es
          ∧ "AndroidManifest.xml" ∈ es.map (fun e => e.1)
          ∧ ∃ f ∈ es.map (fun e => e.1), pyEndsWith f ".dex" = true)
    ∧ (get_apk_info env apk_path).files_count
        = (env.open_zip apk_path).map (fun es => es.length) := by
  rcases hz : env.open_zip apk_path with _ | es
  · exact ⟨by simp [get_apk_info, hz], by simp [get_apk_info, hz]⟩
  · constructor
    · simp [get_apk_info, hz, List.any_eq_true,
        List.contains_iff_exists_mem_beq, beq_iff_eq]
    · simp [get_apk_info, hz]

/-! ## C5: fallback round trip -/

theorem any_key_eq_false (acc : List (String × String)) (p : String)
    (h : p ∉ acc.map (fun e => e.1)) :
    (acc.any (fun e => e.1 == p)) = false := by
  rw [List.any_eq_false]
  intro x hx hbeq
  exact h (List.mem_map.mpr ⟨x, hx, beq_iff_eq.mp hbeq⟩)

theorem lookupFile_cons_ne (e : String × String)
    (rest : List (String × String)) (p : String) (h : ¬ e.1 = p) :
    lookupFile p (e :: rest) = lookupFile p rest := by
  unfold lookupFile
  rw [List.find?_cons_of_neg _ (by simp [h])]

theorem extract_entries_from_eq (entries acc : List (String × String))
    (h : ((acc.map (fun e => e.1)) ++ entries.map (fun e => e.1)).Nodup) :
    extract_entries_from acc entries
      = acc ++ entries.filter (fun e => !(is_dir_entry e.1)) := by
  induction entries generalizing acc with
  | nil => simp [extract_entries_from]
  | cons e rest ih =>
    unfold extract_entries_from
    by_cases hd : is_dir_entry e.1 = true
    · rw [if_pos hd]
      have h' : ((acc.map (fun e => e.1)) ++ rest.map (fun e => e.1)).Nodup := by
        refine List.Nodup.sublist ?_ (by simpa using h)
        exact List.Sublist.append_left (List.sublist_cons_self e.1 _) _
      rw [ih acc h']
      simp [List.filter_cons, hd]
    · rw [if_neg hd]
      have hd' : is_dir_entry e.1 = false := by simpa using hd
      have hnotin : e.1 ∉ acc.map (fun e => e.1) := by
        have hdisj := List.disjoint_of_nodup_append (by simpa using h)
        intro hin
        exact hdisj hin (List.mem_cons_self _ _)
      have hw : writeFile acc e.1 e.2 = acc ++ [(e.1, e.2)] := by
        unfold writeFile
        rw [if_neg (by simp [any_key_eq_false acc e.1 hnotin])]
      rw [hw]
      have h' : (((acc ++ [(e.1, e.2)]).map (fun e => e.1))
          ++ rest.map (fun e => e.1)).Nodup := by
        rw [List.map_append, List.append_assoc]
        simpa using h
      rw [ih (acc ++ [(e.1, e.2)]) h']
      simp [List.filter_cons, hd', List.append_assoc]

theorem extract_entries_eq (entries : List (String × String))
    (h : (entries.map (fun e => e.1)).Nodup) :
    extract_entries entries = entries.filter (fun e => !(is_dir_entry e.1)) := by
  unfold extract_entries
  rw [extract_entries_from_eq entries [] (by simpa using h)]
  simp

theorem create_entries_id (tree : List (String × String))
    (h : (tree.map (fun e => e.1)).Nodup) :
    create_entries tree (tree.map (fun e => e.1)) = tree := by
  induction tree with
  | nil => rfl
  | cons e rest ih =>
    rw [List.map_cons] at h
    obtain ⟨hnotin, htail⟩ := List.nodup_cons.mp h
    unfold create_entries
    rw [List.map_cons, List.filterMap_cons]
    have h1 : lookupFile e.1 (e :: rest) = some e.2 := by
      unfold lookupFile
      rw [List.find?_cons_of_pos _ (by simp)]
      rfl
    have h2 : (rest.map (fun e => e.1)).filterMap
          (fun p => (lookupFile p (e :: rest)).map (fun c => (p, c)))
        = (rest.map (fun e => e.1)).filterMap
          (fun p => (lookupFile p rest).map (fun c => (p, c))) := by
      refine filterMap_congr_mem _ _ _ ?_
      intro p hp
      rw [lookupFile_cons_ne e rest p (fun hcon => hnotin (hcon ▸ hp))]
    simp only [h1, Option.map_some']
    rw [h2, show (rest.map (fun e => e.1)).filterMap
          (fun p => (lookupFile p rest).map (fun c => (p, c)))
        = rest from ih htail]

/-- C5.  In fallback mode, extracting a well-formed package archive into
a fresh directory and re-archiving the unmodified tree (in any walk
order) yields exactly the archive's regular-file entries: same relative
paths with byte-identical contents, entry order possibly permuted. -/
theorem fallback_round_trip (entries : List (String × String))
    (order : List String) (hwf : well_formed_archive entries)
    (horder : order.Perm ((extract_entries entries).map (fun e => e.1))) :
    (create_entries (extract_entries entries) order).Perm
      (entries.filter (fun e => !(is_dir_entry e.1))) := by
  obtain ⟨hnd, _⟩ := hwf
  have hext := extract_entries_eq entries hnd
  have htree_nd : ((entries.filter (fun e => !(is_dir_entry e.1))).map
      (fun e => e.1)).Nodup :=
    List.Nodup.sublist (List.Sublist.map _ (List.filter_sublist entries)) hnd
  rw [hext] at horder ⊢
  have hstep : (create_entries (entries.filter (fun e => !(is_dir_entry e.1)))
        order).Perm
      (create_entries (entries.filter (fun e => !(is_dir_entry e.1)))
        ((entries.filter (fun e => !(is_dir_entry e.1))).map (fun e => e.1))) :=
    List.Perm.filterMap _ horder
  have hlast : (create_entries (entries.filter (fun e => !(is_dir_entry e.1)))
        ((entries.filter (fun e => !(is_dir_entry e.1))).map
          (fun e => e.1))).Perm
      (entries.filter (fun e => !(is_dir_entry e.1))) := by
    rw [create_entries_id _ htree_nd]
  exact hstep.trans hlast

/-- C5, witness for `fallback_round_trip`: a four-entry archive (one
directory entry) round-trips through a walk order differing from archive
order. -/
theorem fallback_round_trip_witness :
    well_formed_archive roundTripArchive
    ∧ (create_entries (extract_entries roundTripArchive)
        roundTripOrder).Perm
        (roundTripArchive.filter (fun e => !(is_dir_entry e.1))) :=
  ⟨⟨by decide, by decide⟩,
   fallback_round_trip roundTripArchive roundTripOrder ⟨by decide, by decide⟩
     (by decide)⟩

/-! ## C1: valid markup files are not skipped -/

/-- C1.  `should_skip_file` returns `false` for every `.xml` path that is
outside the signing-metadata directory, contains no known-problematic
versioned-resource directory fragment, has no filesystem-unsafe character
in its basename, is at most 50 MiB, and whose content is decodable,
non-blank and well-formed markup — such a file is not excluded from the
export bundle by the skip rule. -/
theorem skip_keeps_valid_xml (fs : AppFS) (xmlParses : String → Bool)
    (path content : String)
    (hxml : pyEndsWith path ".xml" = true)
    (hmeta : pyContains path "META-INF/" = false)
    (hdirs : (problematic_dirs.any (fun d => pyContains path d)) = false)
    (hchars : (bad_name_chars.any (fun c => pyHasChar (pyBasename path) c))
        = false)
    (hsize : fs.getsize path ≤ 50 * 1024 * 1024)
    (hread : fs.readText path = some content)
    (hne : pyStrip content ≠ "")
    (hparse : xmlParses content = true) :
    should_skip_file fs xmlParses path = false := by
  have e1 : pyEndsWith path ".9.png" = false :=
    pyEndsWith_excl path ".xml" ".9.png" hxml (by decide) (by decide)
  have e2 : pyEndsWith path ".arsc" = false :=
    pyEndsWith_excl path ".xml" ".arsc" hxml (by decide) (by decide)
  have e3 : pyEndsWith path ".dex" = false :=
    pyEndsWith_excl path ".xml" ".dex" hxml (by decide) (by decide)
  have e4 : pyEndsWith path ".kotlin_builtins" = false :=
    pyEndsWith_excl path ".xml" ".kotlin_builtins" hxml (by decide) (by decide)
  have hgt : ¬ (fs.getsize path > 50 * 1024 * 1024) := by omega
  simp [should_skip_file, e1, e2, e3, e4, hmeta, hdirs, hchars, hgt, hxml,
    hread, hne, hparse]

/-- C1, witness for `skip_keeps_valid_xml`: a well-formed layout resource
under `res/layout/` passes every check. -/
theorem skip_keeps_valid_xml_witness :
    fsValidXml.readText "res/layout/main.xml" = some xmlLayoutDoc
    ∧ should_skip_file fsValidXml parsesLayoutDoc "res/layout/main.xml"
        = false :=
  ⟨by decide,
   skip_keeps_valid_xml fsValidXml parsesLayoutDoc "res/layout/main.xml"
     xmlLayoutDoc (by decide) (by decide) (by decide) (by decide) (by decide)
     (by decide) (by decide) (by decide)⟩

/-! ## Export-archive lemmas for the manifest path -/

theorem entriesAt_append (a b : List (String × String)) (p : String) :
    entriesAt (a ++ b) p = entriesAt a p ++ entriesAt b p := by
  simp [entriesAt, List.filter_append]

theorem res_path_ne_manifest (arc : String)
    (h : pyStartsWith arc "res/" = true) :
    ("app/src/main/" ++ arc) ≠ mainManifestPath := by
  intro heq
  have hd : ("app/src/main/" : String).data ++ arc.data
      = ("app/src/main/" : String).data ++ ("AndroidManifest.xml" : String).data := by
    have := congrArg String.data heq
    rw [str_data_append] at this
    exact this.trans (by decide)
  have harc : arc = "AndroidManifest.xml" :=
    str_eq_of_data (List.append_cancel_left hd)
  rw [harc] at h
  exact absurd h (by decide)

theorem assets_path_ne_manifest (arc : String) :
    ("app/src/main/assets/" ++ arc) ≠ mainManifestPath := by
  intro heq
  have hd : ("app/src/main/assets/" : String).data ++ arc.data
      = mainManifestPath.data := by
    have := congrArg String.data heq
    rw [str_data_append] at this
    exact this
  have ht := congrArg (List.take 20) hd
  rw [List.take_left'
    (by decide : (("app/src/main/assets/" : String).data).length = 20)] at ht
  exact absurd ht (by decide)

theorem java_path_ne_manifest (x : String) :
    ("app/src/main/java/" ++ x ++ "/MainActivity.java") ≠ mainManifestPath := by
  intro heq
  have hd : ("app/src/main/java/" : String).data
        ++ (x.data ++ ("/MainActivity.java" : String).data)
      = mainManifestPath.data := by
    have := congrArg String.data heq
    rw [str_data_append, str_data_append, List.append_assoc] at this
    exact this
  have ht := congrArg (List.take 18) hd
  rw [List.take_left'
    (by decide : (("app/src/main/java/" : String).data).length = 18)] at ht
  exact absurd ht (by decide)

theorem scaffold_head_at_manifest (pn : String) :
    entriesAt (scaffold_head pn) mainManifestPath = [manifest_content pn] := by
  have dj : (("app/src/main/java/" ++ slugU pn ++ "/MainActivity.java")
      == "app/src/main/AndroidManifest.xml") = false := by
    rw [beq_eq_false_iff_ne]
    exact java_path_ne_manifest (slugU pn)
  simp [scaffold_head, entriesAt, mainManifestPath, dj]

theorem scaffold_tail_at_manifest (pn : String) :
    entriesAt (scaffold_tail pn) mainManifestPath = [] := by
  simp [scaffold_tail, entriesAt, mainManifestPath]

theorem export_entries_eq (env : ExportEnv) (pd ep pn : String)
    (walk : List String) (hz : env.zipOk = true) :
    (create_android_studio_export env pd ep pn walk).entries
      = scaffold_head pn ++ export_walk env pd false walk
          ++ scaffold_tail pn := by
  unfold create_android_studio_export
  rw [if_pos hz]

theorem export_walk_no_manifest (env : ExportEnv) (pd : String)
    (w : List String) :
    ∀ mc : Bool, "AndroidManifest.xml" ∉ w →
      entriesAt (export_walk env pd mc w) mainManifestPath = [] := by
  induction w with
  | nil =>
    intro mc h
    rfl
  | cons arc rest ih =>
    intro mc h
    have harc : ¬ arc = "AndroidManifest.xml" :=
      fun hc => h (hc ▸ List.mem_cons_self arc rest)
    have hrest : "AndroidManifest.xml" ∉ rest :=
      fun hc => h (List.mem_cons_of_mem arc hc)
    simp only [export_walk]
    by_cases hskip : should_skip_file env.fs env.xmlParses arc = true
    · rw [if_pos hskip]
      exact ih mc hrest
    · rw [if_neg hskip]
      by_cases hres : pyStartsWith arc "res/" = true
      · rw [if_pos hres, entriesAt_append, ih mc hrest, List.append_nil]
        rcases hb : env.fs.readBin (pd ++ "/" ++ arc) with _ | b
        · rfl
        · simp [entriesAt, res_path_ne_manifest arc hres]
      · rw [if_neg hres, if_neg (by simp [harc]), entriesAt_append,
          ih mc hrest, List.append_nil]
        rcases hb : env.fs.readBin (pd ++ "/" ++ arc) with _ | b
        · rfl
        · simp [entriesAt, assets_path_ne_manifest arc]

theorem export_walk_front (env : ExportEnv) (pd : String)
    (w1 : List String) :
    ∀ (mc : Bool) (rest : List String), "AndroidManifest.xml" ∉ w1 →
      entriesAt (export_walk env pd mc (w1 ++ rest)) mainManifestPath
        = entriesAt (export_walk env pd mc rest) mainManifestPath := by
  induction w1 with
  | nil =>
    intro mc rest h
    rfl
  | cons arc w ih =>
    intro mc rest h
    have harc : ¬ arc = "AndroidManifest.xml" :=
      fun hc => h (hc ▸ List.mem_cons_self arc w)
    have hw : "AndroidManifest.xml" ∉ w :=
      fun hc => h (List.mem_cons_of_mem arc hc)
    rw [List.cons_append]
    simp only [export_walk]
    by_cases hskip : should_skip_file env.fs env.xmlParses arc = true
    · rw [if_pos hskip]
      exact ih mc rest hw
    · rw [if_neg hskip]
      by_cases hres : pyStartsWith arc "res/" = true
      · rw [if_pos hres, entriesAt_append, ih mc rest hw]
        rcases hb : env.fs.readBin (pd ++ "/" ++ arc) with _ | b
        · rw [show entriesAt [] mainManifestPath = [] from rfl,
            List.nil_append]
        · rw [show entriesAt [("app/src/main/" ++ arc, b)] mainManifestPath
              = [] from by simp [entriesAt, res_path_ne_manifest arc hres],
            List.nil_append]
      · rw [if_neg hres, if_neg (by simp [harc]), entriesAt_append,
          ih mc rest hw]
        rcases hb : env.fs.readBin (pd ++ "/" ++ arc) with _ | b
        · rw [show entriesAt [] mainManifestPath = [] from rfl,
            List.nil_append]
        · rw [show entriesAt [("app/src/main/assets/" ++ arc, b)]
              mainManifestPath = [] from by
              simp [entriesAt, assets_path_ne_manifest arc],
            List.nil_append]

/-! ## C8: handling of the original manifest during export -/

/-- C8, amended.  During `exportBundle` the synthesized default manifest
is always written first at the target main-manifest path and is never
removed; the original project manifest is *appended* as a second entry at
that path iff its content (re-read from the project file) is non-blank
and merely *contains* the substring `<?xml` anywhere — no well-formedness
check and no requirement that the declaration be at the beginning is made
at this step; for any original failing that containment test, the
synthesized default remains the only entry at the path. -/
theorem manifest_first_writer (env : ExportEnv) (pd ep pn : String)
    (w1 w2 : List String) (m : String)
    (hz : env.zipOk = true)
    (h1 : "AndroidManifest.xml" ∉ w1) (h2 : "AndroidManifest.xml" ∉ w2)
    (hskip : should_skip_file env.fs env.xmlParses "AndroidManifest.xml"
        = false)
    (hread : env.fs.readText (pd ++ "/" ++ "AndroidManifest.xml") = some m) :
    entriesAt (create_android_studio_export env pd ep pn
        (w1 ++ "AndroidManifest.xml" :: w2)).entries mainManifestPath
      = if pyStrip m != "" && pyContains m "<?xml"
        then [manifest_content pn, m]
        else [manifest_content pn] := by
  rw [export_entries_eq env pd ep pn _ hz, entriesAt_append, entriesAt_append,
    scaffold_head_at_manifest, scaffold_tail_at_manifest, List.append_nil,
    export_walk_front env pd w1 false ("AndroidManifest.xml" :: w2) h1]
  simp only [export_walk]
  rw [if_neg (by simp [hskip]), if_neg (by decide), if_pos (by decide)]
  simp only [hread]
  by_cases hv : (pyStrip m != "" && pyContains m "<?xml") = true
  · rw [if_pos hv, if_pos hv]
    rw [show entriesAt ((mainManifestPath, m)
          :: export_walk env pd true w2) mainManifestPath
        = m :: entriesAt (export_walk env pd true w2) mainManifestPath from by
        simp [entriesAt]]
    rw [export_walk_no_manifest env pd w2 true h2]
    rfl
  · rw [if_neg hv, if_neg hv]
    rw [export_walk_no_manifest env pd w2 false h2]
    rfl

/-- C8, witness for `manifest_first_writer`: a declaration-led original
manifest is appended after the default. -/
theorem manifest_first_writer_witness :
    envDeclManifest.fs.readText ("proj" ++ "/" ++ "AndroidManifest.xml")
        = some declManifestDoc
    ∧ entriesAt (create_android_studio_export envDeclManifest "proj" "e.zip"
        "My App" ([] ++ "AndroidManifest.xml" :: [])).entries mainManifestPath
      = if pyStrip declManifestDoc != ""
            && pyContains declManifestDoc "<?xml"
        then [manifest_content "My App", declManifestDoc]
        else [manifest_content "My App"] :=
  ⟨by decide,
   manifest_first_writer envDeclManifest "proj" "e.zip" "My App" [] []
     declManifestDoc rfl (by simp) (by simp) (by decide) (by decide)⟩

/-- C8, counterexample.  The claim says the original overwrites the
pre-written default only if it is well-formed markup *beginning* with a
markup declaration.  With an original that does not begin with the
declaration (the substring `<?xml` occurs only inside a comment), the
code still appends the original at the manifest target path — and the
pre-written synthesized default survives alongside it, so nothing is
overwritten either. -/
theorem manifest_first_writer_cex :
    pyStartsWith commentManifestDoc "<?xml" = false
    ∧ commentManifestDoc ∈ entriesAt (create_android_studio_export
        envCommentManifest "proj" "export.zip" "Demo App"
        ["AndroidManifest.xml"]).entries mainManifestPath
    ∧ manifest_content "Demo App" ∈ entriesAt (create_android_studio_export
        envCommentManifest "proj" "export.zip" "Demo App"
        ["AndroidManifest.xml"]).entries mainManifestPath := by
  have hE : entriesAt (create_android_studio_export envCommentManifest "proj"
        "export.zip" "Demo App" ["AndroidManifest.xml"]).entries
        mainManifestPath
      = [manifest_content "Demo App", commentManifestDoc] := rfl
  refine ⟨by decide, ?_, ?_⟩
  · rw [hE]
    simp
  · rw [hE]
    simp

/-! ## C3: exactly one entry at the main-manifest path -/

/-- C3.  The claim says a successful export archive holds exactly one
entry at `app/src/main/AndroidManifest.xml`.  Evaluating the export on a
project tree whose root manifest is valid declaration-led markup shows
the archive holds *two* entries at that path: the synthesized default
followed by the original (`zipfile.writestr` appends a duplicate-name
entry instead of replacing). -/
theorem duplicate_manifest_entries :
    entriesAt (create_android_studio_export envDeclManifest "proj"
        "export.zip" "TestApp" ["AndroidManifest.xml"]).entries
        mainManifestPath
      = [manifest_content "TestApp", declManifestDoc]
    ∧ (entriesAt (create_android_studio_export envDeclManifest "proj"
        "export.zip" "TestApp" ["AndroidManifest.xml"]).entries
        mainManifestPath).length = 2 :=
  ⟨rfl, rfl⟩
